import Mathlib

/-!
Verification of the ResuMatch Pro core against its specification.

The development shallowly embeds the deterministic parts of the pipeline:
the post-parse normalization performed by the LLM gateway
(src/server/gemini.ts and the fuller service module), the sentinel-split
parsing of the tailored-resume response, the text extractor
(src/server/fileExtractor.ts), the upload route handler
(src/server/routes.ts), and the in-memory storage operations on job
matches.  External collaborators (the LLM provider, pdfjs, mammoth,
tesseract, JSON.parse) are modelled by passing their outcome as an
explicit argument.  JavaScript strings are modelled as Lean strings, and
byte buffers as lists of characters.
-/

namespace Resumatch

/-! ## JavaScript-style helpers -/

/-- Models the JavaScript fallback `x || d` for an optional string field:
a missing value or the empty string (both falsy) yield the default. -/
def jsOrStr (x : Option String) (d : String) : String :=
  match x with
  | none => d
  | some s => if s = "" then d else s

/-- Models `x || 0` for an optional numeric field: a missing value yields 0
(`some 0` is falsy in JavaScript but the fallback is also 0). -/
def jsOrZero (x : Option Int) : Int := x.getD 0

/-- Whitespace characters removed by the JavaScript string trim. -/
def isWs (c : Char) : Bool :=
  c == ' ' || c == '\t' || c == '\n' || c == '\r'

/-- Models the JavaScript string trim: removes whitespace at both ends. -/
def trimChars (s : List Char) : List Char :=
  ((s.dropWhile isWs).reverse.dropWhile isWs).reverse

/-- String version of `trimChars`. -/
def jsTrim (s : String) : String := String.mk (trimChars s.data)

/-- Models the JavaScript `s.includes(pat)` substring test. -/
def jsIncludes (s pat : String) : Bool := decide (pat.data <:+: s.data)

/-! ## LLM gateway: resume analysis (analyzeResume, src/server/gemini.ts) -/

/-- Parsed section-scores object of a model payload; each field may be
missing or non-numeric, modelled by `none`. -/
structure SectionScoresPayload where
  summary : Option Int
  education : Option Int
  experience : Option Int
  other : Option Int

/-- Parsed JSON payload of the resume-analysis model response. -/
structure ResumeAnalysisPayload where
  completenessScore : Option Int
  completenessRationale : Option String
  sectionScores : Option SectionScoresPayload
  suggestions : Option (List String)

structure SectionScores where
  summary : Int
  education : Int
  experience : Int
  other : Int

structure ResumeAnalysis where
  completenessScore : Int
  completenessRationale : String
  sectionScores : SectionScores
  suggestions : List String

/-- Models `Math.min(100, Math.max(0, x))`. -/
def clamp100 (x : Int) : Int := min 100 (max 0 x)

/-- Models `Math.min(5, Math.max(0, x))`. -/
def clamp5 (x : Int) : Int := min 5 (max 0 x)

/-- One section score: `Math.min(5, Math.max(0, data.sectionScores?.f || 0))`. -/
def sectionScoreOf (p : Option SectionScoresPayload)
    (f : SectionScoresPayload → Option Int) : Int :=
  clamp5 (jsOrZero (p.bind f))

/-- The value returned by `analyzeResume` as a function of the parsed
model payload (src/server/gemini.ts lines 93-106). -/
def analyzeResume (d : ResumeAnalysisPayload) : ResumeAnalysis where
  completenessScore := clamp100 (jsOrZero d.completenessScore)
  completenessRationale := jsOrStr d.completenessRationale "No rationale provided"
  sectionScores :=
    { summary := sectionScoreOf d.sectionScores (fun s => s.summary)
      education := sectionScoreOf d.sectionScores (fun s => s.education)
      experience := sectionScoreOf d.sectionScores (fun s => s.experience)
      other := sectionScoreOf d.sectionScores (fun s => s.other) }
  suggestions := (d.suggestions.getD []).take 8

/-! ## LLM gateway: job match (analyzeJobMatch, src/server/gemini.ts) -/

/-- One gap object of the parsed job-match payload. -/
structure GapPayload where
  category : Option String
  description : Option String
  severity : Option String

/-- Parsed JSON payload of the job-match model response. -/
structure JobMatchPayload where
  alignmentScore : Option Int
  alignmentRationale : Option String
  gaps : Option (List GapPayload)
  strengths : Option (List String)
  recommendations : Option (List String)

structure Gap where
  category : String
  description : String
  severity : String
deriving DecidableEq

structure JobMatchResult where
  alignmentScore : Int
  alignmentRationale : String
  gaps : List Gap
  strengths : List String
  recommendations : List String

def allowedSeverities : List String := ["high", "medium", "low"]

/-- Severity validation: models
`["high","medium","low"].includes(gap.severity) ? gap.severity : "medium"`;
a missing severity is not a member, hence coerced to "medium". -/
def coerceSeverity (s : Option String) : String :=
  match s with
  | some v => if v ∈ allowedSeverities then v else "medium"
  | none => "medium"

/-- Per-gap normalization applied inside `analyzeJobMatch`. -/
def normGap (g : GapPayload) : Gap where
  category := jsOrStr g.category "Unknown"
  description := jsOrStr g.description ""
  severity := coerceSeverity g.severity

/-- The value returned by `analyzeJobMatch` as a function of the parsed
model payload (src/server/gemini.ts lines 203-216). -/
def analyzeJobMatch (d : JobMatchPayload) : JobMatchResult where
  alignmentScore := clamp100 (jsOrZero d.alignmentScore)
  alignmentRationale := jsOrStr d.alignmentRationale "No rationale provided"
  gaps := ((d.gaps.getD []).take 8).map normGap
  strengths := (d.strengths.getD []).take 6
  recommendations := (d.recommendations.getD []).take 8

/-! ## LLM gateway: final verdict (generateFinalVerdict) -/

/-- Parsed JSON payload of the final-verdict model response.  The
`shouldApply` field is `some b` when the payload holds the boolean `b`
and `none` when it is missing, null, or not a boolean. -/
structure VerdictPayload where
  verdict : Option String
  shouldApply : Option Bool

structure FinalVerdictResult where
  verdict : String
  shouldApply : Bool

/-- Post-parse normalization of `generateFinalVerdict`:
`verdict || "Unable to generate verdict at this time."` and
`shouldApply !== false`. -/
def mkFinalVerdict (d : VerdictPayload) : FinalVerdictResult where
  verdict := jsOrStr d.verdict "Unable to generate verdict at this time."
  shouldApply :=
    match d.shouldApply with
    | some false => false
    | _ => true

/-- The result of `generateFinalVerdict` as a function of the outcome of
`JSON.parse(response.text || "{}")`: a parse exception propagates out of
the function (there is no try/catch around the parse), a parsed payload
is normalized by `mkFinalVerdict`. -/
def generateFinalVerdict (parsed : Except String VerdictPayload) :
    Except String FinalVerdictResult :=
  match parsed with
  | Except.error e => Except.error e
  | Except.ok d => Except.ok (mkFinalVerdict d)

/-! ## LLM gateway: tailored resume sentinel split (generateTailoredResume) -/

/-- The literal sentinel marker used by the tailored-resume task. -/
def separatorMarker : List Char := "===SEPARATOR===".data

/-- First index at which `pat` occurs in the list, as in the JavaScript
`indexOf` (result `none` models -1). -/
def firstIndexOf (pat : List Char) : List Char → Option Nat
  | [] => if pat.isPrefixOf ([] : List Char) then some 0 else none
  | c :: rest =>
    if pat.isPrefixOf (c :: rest) then some 0
    else (firstIndexOf pat rest).map (· + 1)

/-- The pattern occurs in `s` at position `i`. -/
def occursAt (s : List Char) (i : Nat) : Prop :=
  separatorMarker <+: s.drop i

instance (s : List Char) (i : Nat) : Decidable (occursAt s i) := by
  unfold occursAt; infer_instance

structure TailoredResult where
  changesSummary : List Char
  resumeMarkdown : List Char
deriving DecidableEq

/-- Fallback changes summary used when the sentinel is absent. -/
def changesPlaceholder : List Char := "Unable to generate changes summary".data

/-- The pair returned by `generateTailoredResume` as a function of the
full response text: split on the first occurrence of the sentinel, or
fall back to the placeholder summary plus the whole text. -/
def generateTailoredResume (fullResponse : List Char) : TailoredResult :=
  match firstIndexOf separatorMarker fullResponse with
  | none => { changesSummary := changesPlaceholder, resumeMarkdown := fullResponse }
  | some i =>
    { changesSummary := trimChars (fullResponse.take i)
      resumeMarkdown := trimChars (fullResponse.drop (i + separatorMarker.length)) }

/-! ## Text extractor (src/server/fileExtractor.ts)

Byte buffers are modelled as lists of characters; the byte length of the
buffer is the length of the list.  The external parsers are modelled by
their outcome: for pdfjs the list of per-page joined text strings or the
message of the exception it threw, for mammoth the optional raw-text
value or an exception message, likewise for the OCR engine. -/

def tooSmallPdfMsg : String := "File is too small to be a valid PDF"

def notPdfMsg : String :=
  "File is not a valid PDF format. Please upload a real PDF file, not a text file with a .pdf extension."

def pdfEmptyMsg : String :=
  "PDF appears to be empty or contains no extractable text. If your resume is image-based, try uploading it as PNG or JPG instead."

def corruptPdfMsg : String :=
  "Unable to read PDF file. The file may be corrupted, password-protected, or in an unsupported format. Please try: (1) saving a new copy of your PDF, or (2) uploading as an image (PNG/JPG)."

def docxEmptyMsg : String := "DOCX appears to be empty or contains no extractable text"

def imageEmptyMsg : String := "Image appears to contain no readable text"

def unsupportedMsg : String := "Unsupported file type"

/-- Body of the try block of `extractTextFromPDF`: size check, magic-header
check on the first five bytes, then assembly of the page texts
(`fullText += pageText + "\n"`), trim, and emptiness check. -/
def pdfTryBody (buf : List Char) (parse : Except String (List String)) :
    Except String String :=
  if buf.length < 100 then Except.error tooSmallPdfMsg
  else if ("%PDF-".data.isPrefixOf (buf.take 5)) = false then Except.error notPdfMsg
  else
    match parse with
    | Except.error e => Except.error e
    | Except.ok pages =>
      let fullText := pages.foldl (fun acc p => acc ++ p ++ "\n") ""
      let text := jsTrim fullText
      if text = "" then Except.error pdfEmptyMsg else Except.ok text

/-- Catch block of `extractTextFromPDF`: re-throw the three in-house
errors unchanged, classify parser errors mentioning invalid, corrupt,
password or encrypted as the corrupted-or-protected failure, and wrap
anything else. -/
def pdfCatch (e : String) : String :=
  if jsIncludes e "not a valid PDF format" then e
  else if jsIncludes e "no extractable text" then e
  else if jsIncludes e "too small" then e
  else if jsIncludes e.toLower "invalid" || jsIncludes e.toLower "corrupt" ||
      jsIncludes e.toLower "password" || jsIncludes e.toLower "encrypted" then
    corruptPdfMsg
  else "Failed to extract text from PDF: " ++ (if e = "" then "Unknown error" else e)

/-- `extractTextFromPDF` over a buffer and the pdfjs outcome. -/
def extractTextFromPDF (buf : List Char) (parse : Except String (List String)) :
    Except String String :=
  match pdfTryBody buf parse with
  | Except.ok t => Except.ok t
  | Except.error e => Except.error (pdfCatch e)

/-- `extractTextFromDOCX` over the mammoth outcome
(`result.value?.trim() || ""`, emptiness check, catch re-throw or wrap). -/
def extractTextFromDOCX (raw : Except String (Option String)) :
    Except String String :=
  match raw with
  | Except.error e =>
    Except.error (if jsIncludes e "no extractable text" then e
      else "Failed to extract text from DOCX: " ++ (if e = "" then "Unknown error" else e))
  | Except.ok v =>
    let text := jsTrim (v.getD "")
    if text = "" then Except.error docxEmptyMsg else Except.ok text

/-- `extractTextFromImage` over the OCR outcome. -/
def extractTextFromImage (ocr : Except String (Option String)) :
    Except String String :=
  match ocr with
  | Except.error e =>
    Except.error (if jsIncludes e "no readable text" then e
      else "Failed to extract text from image using OCR: " ++ (if e = "" then "Unknown error" else e))
  | Except.ok v =>
    let text := jsTrim (v.getD "")
    if text = "" then Except.error imageEmptyMsg else Except.ok text

/-- Outcomes of the external parsing collaborators for one upload. -/
structure ExternalOutcomes where
  pdfParse : Except String (List String)
  docxRaw : Except String (Option String)
  ocrRaw : Except String (Option String)

def docxMime : String :=
  "application/vnd.openxmlformats-officedocument.wordprocessingml.document"

/-- `extractText`: dispatch on the declared MIME type.  The plain-text
branch decodes the buffer directly, with no emptiness check. -/
def extractText (buf : List Char) (mimeType : String) (ext : ExternalOutcomes) :
    Except String String :=
  if mimeType = "application/pdf" then extractTextFromPDF buf ext.pdfParse
  else if mimeType = docxMime ∨ mimeType = "application/msword" then
    extractTextFromDOCX ext.docxRaw
  else if "image/".data.isPrefixOf mimeType.data then extractTextFromImage ext.ocrRaw
  else if mimeType = "text/plain" then Except.ok (String.mk buf)
  else Except.error unsupportedMsg

/-! ## Storage (MemStorage, the in-memory IStorage implementation) -/

structure GapResponse where
  gapIndex : Nat
  proficiencyLevel : String
deriving DecidableEq

/-- A stored job-match record with all columns of the job_matches table. -/
structure JobMatch where
  id : String
  resumeId : String
  jobDescription : String
  jobRole : Option String
  jobLocation : Option String
  alignmentScore : Int
  alignmentRationale : String
  gaps : List Gap
  strengths : List String
  recommendations : List String
  gapResponses : Option (List GapResponse)
  finalVerdict : Option String
  shouldApply : Option Bool
  tailoredResumeContent : Option String
  createdAt : Nat
deriving DecidableEq

/-- A stored resume record. -/
structure Resume where
  id : String
  userId : String
  filename : String
  filesize : Nat
  mimeType : String
  extractedText : String
  createdAt : Nat
deriving DecidableEq

/-- Lookup in a JavaScript Map modelled as an association list. -/
def mapGet {α : Type} (m : List (String × α)) (k : String) : Option α :=
  match m with
  | [] => none
  | (k2, v) :: rest => if k2 = k then some v else mapGet rest k

/-- Update in a JavaScript Map: replace the binding in place, or append. -/
def mapSet {α : Type} (m : List (String × α)) (k : String) (v : α) :
    List (String × α) :=
  match m with
  | [] => [(k, v)]
  | (k2, v2) :: rest => if k2 = k then (k, v) :: rest else (k2, v2) :: mapSet rest k v

abbrev JobMatchMap := List (String × JobMatch)

/-- `MemStorage.updateJobMatchResponses`: look up the record, overwrite
only gapResponses, finalVerdict and shouldApply, store it back; a missing
id returns undefined and touches nothing. -/
def updateJobMatchResponses (m : JobMatchMap) (id : String)
    (gapResponses : List GapResponse) (finalVerdict : String)
    (shouldApply : Bool) : JobMatchMap × Option JobMatch :=
  match mapGet m id with
  | none => (m, none)
  | some jm =>
    let updated : JobMatch :=
      { jm with
        gapResponses := some gapResponses
        finalVerdict := some finalVerdict
        shouldApply := some shouldApply }
    (mapSet m id updated, some updated)

/-- `MemStorage.updateJobMatchResume`: overwrite only
tailoredResumeContent. -/
def updateJobMatchResume (m : JobMatchMap) (id : String)
    (tailoredResumeContent : String) : JobMatchMap × Option JobMatch :=
  match mapGet m id with
  | none => (m, none)
  | some jm =>
    let updated : JobMatch := { jm with tailoredResumeContent := some tailoredResumeContent }
    (mapSet m id updated, some updated)

/-! ## Upload route handler (POST /api/resumes/upload, src/server/routes.ts) -/

/-- The resume store together with a supply of fresh ids, modelling
randomUUID and the creation timestamp. -/
structure ResumeStore where
  resumes : List (String × Resume)
  nextId : Nat

def freshId (st : ResumeStore) : String := "uuid-" ++ toString st.nextId

/-- `MemStorage.createResume`: assign a fresh id and timestamp and insert. -/
def createResume (st : ResumeStore) (userId filename : String) (filesize : Nat)
    (mimeType extractedText : String) : ResumeStore × Resume :=
  let r : Resume :=
    { id := freshId st
      userId := userId
      filename := filename
      filesize := filesize
      mimeType := mimeType
      extractedText := extractedText
      createdAt := st.nextId }
  ({ resumes := mapSet st.resumes r.id r, nextId := st.nextId + 1 }, r)

/-- Uploaded file as seen by the route handler. -/
structure FileUpload where
  originalname : String
  size : Nat
  mimetype : String
  buffer : List Char

/-- Response of the upload route handler. -/
inductive UploadResponse where
  | unauthorized
  | noFile
  | insufficientText
  | serverError (msg : String)
  | created (r : Resume)
deriving DecidableEq

/-- The POST /api/resumes/upload handler: session check, file check, text
extraction, the 50-character data-quality gate, and only then
`createResume` with the extracted text. -/
def uploadHandler (st : ResumeStore) (sessionUserId : Option String)
    (file : Option FileUpload) (ext : ExternalOutcomes) :
    ResumeStore × UploadResponse :=
  match sessionUserId with
  | none => (st, UploadResponse.unauthorized)
  | some uid =>
    match file with
    | none => (st, UploadResponse.noFile)
    | some f =>
      match extractText f.buffer f.mimetype ext with
      | Except.error e => (st, UploadResponse.serverError e)
      | Except.ok text =>
        if text = "" ∨ text.length < 50 then (st, UploadResponse.insufficientText)
        else
          ((createResume st uid f.originalname f.size f.mimetype text).1,
            UploadResponse.created (createResume st uid f.originalname f.size f.mimetype text).2)

/-! ## Orchestrator: submit gap responses

The route handler performing this step is not among the source files of
the repository (only its storage callee and its client-side callers
are), so it is modelled from the specification. -/

def proficiencyLevels : List String := ["none", "basic", "moderate", "advanced"]

/-- Precondition of the submit-gap-responses transition per the
specification: a response exists for every gap index of the gaps array,
every supplied index is within bounds, and every proficiency value is in
the fixed enum. -/
def validGapResponses (jm : JobMatch) (responses : List GapResponse) : Bool :=
  responses.all (fun r =>
    decide (r.gapIndex < jm.gaps.length) && proficiencyLevels.contains r.proficiencyLevel)
  && (List.range jm.gaps.length).all (fun i => responses.any (fun r => r.gapIndex == i))

/-- Modelled from the spec: the submit-gap-responses orchestrator step;
the HTTP route handler implementing it is missing from the provided
sources.  Per the specification, the gap responses are bounds-checked
against the gaps array and the proficiency values are validated against
the fixed enum before anything happens; a violation is a rejected
operation that stores nothing and produces no verdict, while on success
the final-verdict task result (passed here as the outcome of that LLM
call) is persisted together with the responses via
`updateJobMatchResponses`. -/
def submitGapResponses (m : JobMatchMap) (id : String)
    (responses : List GapResponse) (verdictOutcome : FinalVerdictResult) :
    JobMatchMap × Except String JobMatch :=
  match mapGet m id with
  | none => (m, Except.error "Job match not found")
  | some jm =>
    if validGapResponses jm responses then
      match updateJobMatchResponses m id responses verdictOutcome.verdict
          verdictOutcome.shouldApply with
      | (m2, some jm2) => (m2, Except.ok jm2)
      | (m2, none) => (m2, Except.error "Job match not found")
    else (m, Except.error "Invalid gap responses")

/-- Sample gap used by concrete witnesses. -/
def gapSample : Gap where
  category := "Technical Skills"
  description := "Docker experience missing"
  severity := "high"

/-- Sample stored job match with three gaps, used by concrete
witnesses. -/
def jmSample : JobMatch where
  id := "j1"
  resumeId := "r1"
  jobDescription := "desc"
  jobRole := none
  jobLocation := none
  alignmentScore := 70
  alignmentRationale := "rationale"
  gaps := [gapSample, gapSample, gapSample]
  strengths := ["python"]
  recommendations := ["learn docker"]
  gapResponses := none
  finalVerdict := none
  shouldApply := none
  tailoredResumeContent := none
  createdAt := 0

/-! ## Supporting lemmas -/

theorem clamp100_nonneg (x : Int) : 0 ≤ clamp100 x :=
  le_min (by norm_num) (le_max_left 0 x)

theorem clamp100_le (x : Int) : clamp100 x ≤ 100 := min_le_left _ _

theorem clamp5_nonneg (x : Int) : 0 ≤ clamp5 x :=
  le_min (by norm_num) (le_max_left 0 x)

theorem clamp5_le (x : Int) : clamp5 x ≤ 5 := min_le_left _ _

theorem firstIndexOf_eq_none {pat s : List Char}
    (h : firstIndexOf pat s = none) (i : Nat) : ¬ pat <+: s.drop i := by
  induction s generalizing i with
  | nil =>
    rw [firstIndexOf] at h
    split at h
    · exact absurd h (by simp)
    · next hnp =>
      rw [List.drop_nil]
      exact fun hp => hnp (List.isPrefixOf_iff_prefix.mpr hp)
  | cons c rest ih =>
    rw [firstIndexOf] at h
    split at h
    · exact absurd h (by simp)
    · next hnp =>
      cases i with
      | zero =>
        rw [List.drop_zero]
        exact fun hp => hnp (List.isPrefixOf_iff_prefix.mpr hp)
      | succ j =>
        have h2 : firstIndexOf pat rest = none := by
          cases hfi : firstIndexOf pat rest with
          | none => rfl
          | some k => rw [hfi] at h; exact absurd h (by simp)
        rw [List.drop_succ_cons]
        exact ih h2 j

theorem firstIndexOf_eq_some {pat s : List Char} {i : Nat}
    (h : firstIndexOf pat s = some i) :
    (pat <+: s.drop i) ∧ ∀ j, j < i → ¬ pat <+: s.drop j := by
  induction s generalizing i with
  | nil =>
    rw [firstIndexOf] at h
    split at h
    · next hp =>
      have hi : i = 0 := by injection h with h2; exact h2.symm
      subst hi
      refine ⟨?_, fun j hj => absurd hj (Nat.not_lt_zero j)⟩
      rw [List.drop_nil]
      exact List.isPrefixOf_iff_prefix.mp hp
    · exact absurd h (by simp)
  | cons c rest ih =>
    rw [firstIndexOf] at h
    split at h
    · next hp =>
      have hi : i = 0 := by injection h with h2; exact h2.symm
      subst hi
      refine ⟨?_, fun j hj => absurd hj (Nat.not_lt_zero j)⟩
      rw [List.drop_zero]
      exact List.isPrefixOf_iff_prefix.mp hp
    · next hnp =>
      cases hfi : firstIndexOf pat rest with
      | none => rw [hfi] at h; exact absurd h (by simp)
      | some k =>
        rw [hfi] at h
        have hi : k + 1 = i := by injection h
        subst hi
        obtain ⟨h1, h2⟩ := ih hfi
        refine ⟨by rw [List.drop_succ_cons]; exact h1, ?_⟩
        intro j hj
        cases j with
        | zero =>
          rw [List.drop_zero]
          exact fun hp => hnp (List.isPrefixOf_iff_prefix.mpr hp)
        | succ j2 =>
          rw [List.drop_succ_cons]
          exact h2 j2 (Nat.lt_of_succ_lt_succ hj)

theorem mapGet_mapSet_self {α : Type} (m : List (String × α)) (k : String) (v : α) :
    mapGet (mapSet m k v) k = some v := by
  induction m with
  | nil => simp [mapSet, mapGet]
  | cons p rest ih =>
    obtain ⟨k2, v2⟩ := p
    by_cases h : k2 = k
    · simp [mapSet, mapGet, h]
    · simp [mapSet, mapGet, h, ih]

theorem mapGet_mapSet_ne {α : Type} (m : List (String × α)) (k k2 : String) (v : α)
    (h : k2 ≠ k) : mapGet (mapSet m k v) k2 = mapGet m k2 := by
  induction m with
  | nil =>
    simp only [mapSet, mapGet]
    rw [if_neg (Ne.symm h)]
  | cons p rest ih =>
    obtain ⟨k3, v3⟩ := p
    by_cases h3 : k3 = k
    · subst h3
      simp only [mapSet, if_pos rfl, mapGet]
      rw [if_neg (Ne.symm h), if_neg (Ne.symm h)]
    · simp only [mapSet, if_neg h3, mapGet]
      by_cases h4 : k3 = k2
      · rw [if_pos h4, if_pos h4]
      · rw [if_neg h4, if_neg h4]
        exact ih

/-! ## Claim theorems -/

/-- C1: every numeric score field in the values returned by analyzeResume
and analyzeJobMatch lies in its declared domain: completenessScore and
alignmentScore are clamped into the interval from 0 to 100 (a payload
value of -5 is stored as 0 and a payload value of 140 as 100), and each
of the four section scores is clamped into the interval from 0 to 5. -/
theorem c1_scores_clamped :
    (∀ d : ResumeAnalysisPayload,
        0 ≤ (analyzeResume d).completenessScore ∧
        (analyzeResume d).completenessScore ≤ 100 ∧
        0 ≤ (analyzeResume d).sectionScores.summary ∧
        (analyzeResume d).sectionScores.summary ≤ 5 ∧
        0 ≤ (analyzeResume d).sectionScores.education ∧
        (analyzeResume d).sectionScores.education ≤ 5 ∧
        0 ≤ (analyzeResume d).sectionScores.experience ∧
        (analyzeResume d).sectionScores.experience ≤ 5 ∧
        0 ≤ (analyzeResume d).sectionScores.other ∧
        (analyzeResume d).sectionScores.other ≤ 5) ∧
    (∀ d : JobMatchPayload,
        0 ≤ (analyzeJobMatch d).alignmentScore ∧
        (analyzeJobMatch d).alignmentScore ≤ 100) ∧
    (analyzeResume ⟨some (-5), none, none, none⟩).completenessScore = 0 ∧
    (analyzeResume ⟨some 140, none, none, none⟩).completenessScore = 100 ∧
    (analyzeJobMatch ⟨some (-5), none, none, none, none⟩).alignmentScore = 0 ∧
    (analyzeJobMatch ⟨some 140, none, none, none, none⟩).alignmentScore = 100 := by
  refine ⟨fun d => ?_, fun d => ⟨clamp100_nonneg _, clamp100_le _⟩,
    by decide, by decide, by decide, by decide⟩
  exact ⟨clamp100_nonneg _, clamp100_le _, clamp5_nonneg _, clamp5_le _,
    clamp5_nonneg _, clamp5_le _, clamp5_nonneg _, clamp5_le _,
    clamp5_nonneg _, clamp5_le _⟩

/-- C7: every list in the values returned by analyzeResume and
analyzeJobMatch is truncated to its declared maximum cardinality keeping
exactly the first elements in order: at most 8 suggestions, at most 8
gaps, at most 6 strengths, at most 8 recommendations; a suggestions
payload of 10 items keeps exactly the first 8 in order. -/
theorem c7_lists_truncated :
    (∀ d : ResumeAnalysisPayload,
        (analyzeResume d).suggestions = (d.suggestions.getD []).take 8 ∧
        (analyzeResume d).suggestions.length ≤ 8) ∧
    (∀ d : JobMatchPayload,
        (analyzeJobMatch d).gaps = ((d.gaps.getD []).take 8).map normGap ∧
        (analyzeJobMatch d).gaps.length ≤ 8 ∧
        (analyzeJobMatch d).strengths = (d.strengths.getD []).take 6 ∧
        (analyzeJobMatch d).strengths.length ≤ 6 ∧
        (analyzeJobMatch d).recommendations = (d.recommendations.getD []).take 8 ∧
        (analyzeJobMatch d).recommendations.length ≤ 8) ∧
    (analyzeResume ⟨none, none, none,
        some ["s1", "s2", "s3", "s4", "s5", "s6", "s7", "s8", "s9", "s10"]⟩).suggestions
      = ["s1", "s2", "s3", "s4", "s5", "s6", "s7", "s8"] := by
  refine ⟨fun d => ⟨rfl, List.length_take_le _ _⟩,
    fun d => ⟨rfl, ?_, rfl, List.length_take_le _ _, rfl, List.length_take_le _ _⟩,
    by decide⟩
  show (((d.gaps.getD []).take 8).map normGap).length ≤ 8
  rw [List.length_map]
  exact List.length_take_le _ _

/-- C8: gap severities are validated against the allowed set: a severity
that is not one of high, medium, low (for example urgent, or a missing
value) is stored as medium, while an allowed severity is kept unchanged;
the stored severities are exactly the coercions of the first eight
payload gaps. -/
theorem c8_severity_coerced :
    (∀ s : String, s ∉ allowedSeverities → coerceSeverity (some s) = "medium") ∧
    coerceSeverity none = "medium" ∧
    (∀ s ∈ allowedSeverities, coerceSeverity (some s) = s) ∧
    (∀ d : JobMatchPayload,
        (analyzeJobMatch d).gaps.map (fun g => g.severity)
          = ((d.gaps.getD []).take 8).map (fun g => coerceSeverity g.severity)) ∧
    (analyzeJobMatch ⟨none, none,
        some [⟨some "Technical Skills", some "desc", some "urgent"⟩],
        none, none⟩).gaps.map (fun g => g.severity) = ["medium"] := by
  refine ⟨fun s hs => by simp [coerceSeverity, hs], rfl,
    fun s hs => by simp [coerceSeverity, hs], fun d => ?_, by decide⟩
  show (((d.gaps.getD []).take 8).map normGap).map (fun g => g.severity)
    = ((d.gaps.getD []).take 8).map (fun g => coerceSeverity g.severity)
  rw [List.map_map]
  rfl

/-- C8 witness: the urgent severity is outside the allowed set and is
stored as medium; the high severity is allowed and kept. -/
theorem c8_severity_coerced_witness :
    "urgent" ∉ allowedSeverities ∧ coerceSeverity (some "urgent") = "medium" ∧
    "high" ∈ allowedSeverities ∧ coerceSeverity (some "high") = "high" :=
  ⟨by decide, c8_severity_coerced.1 "urgent" (by decide), by decide,
    c8_severity_coerced.2.2.1 "high" (by decide)⟩

/-- C10 counterexample: a model response whose text does not parse as
JSON makes generateFinalVerdict propagate the parse failure; no result
with shouldApply true is produced, contrary to the claim that an
entirely unparsable response defaults to apply. -/
theorem c10_unparsable_counterexample :
    generateFinalVerdict (Except.error "SyntaxError: Unexpected token")
      = Except.error "SyntaxError: Unexpected token" ∧
    (generateFinalVerdict (Except.error "SyntaxError: Unexpected token")).toOption
      = none :=
  ⟨rfl, rfl⟩

/-- C10 (amended): for every model response whose text parses as JSON
(an empty text parses as the empty object), generateFinalVerdict returns
shouldApply true unless the parsed shouldApply field is literally the
boolean false, so a missing, null or non-boolean shouldApply defaults to
true, and a missing verdict string defaults to the fixed placeholder;
a non-empty unparsable response instead propagates the parse failure. -/
theorem c10_should_apply_default (d : VerdictPayload) (e : String) :
    generateFinalVerdict (Except.ok d) = Except.ok (mkFinalVerdict d) ∧
    ((mkFinalVerdict d).shouldApply = false ↔ d.shouldApply = some false) ∧
    (d.shouldApply ≠ some false → (mkFinalVerdict d).shouldApply = true) ∧
    (d.verdict = none →
        (mkFinalVerdict d).verdict = "Unable to generate verdict at this time.") ∧
    generateFinalVerdict (Except.error e) = Except.error e := by
  refine ⟨rfl, ?_, ?_, ?_, rfl⟩
  · rcases hsa : d.shouldApply with _ | b
    · simp [mkFinalVerdict, hsa]
    · cases b <;> simp [mkFinalVerdict, hsa]
  · intro h
    rcases hsa : d.shouldApply with _ | b
    · simp [mkFinalVerdict, hsa]
    · cases b
      · exact absurd hsa h
      · simp [mkFinalVerdict, hsa]
  · intro h
    simp [mkFinalVerdict, jsOrStr, h]

/-- C10 witness: a payload with both fields missing yields the
placeholder verdict and shouldApply true. -/
theorem c10_should_apply_default_witness :
    (mkFinalVerdict ⟨none, none⟩).verdict
        = "Unable to generate verdict at this time." ∧
    (mkFinalVerdict ⟨none, none⟩).shouldApply = true ∧
    (none : Option Bool) ≠ some false :=
  ⟨(c10_should_apply_default ⟨none, none⟩ "e").2.2.2.1 rfl,
    (c10_should_apply_default ⟨none, none⟩ "e").2.2.1 (by decide),
    by decide⟩

/-- C2: generateTailoredResume never fails on a response without the
sentinel marker: it returns the whole response text as the resume body
and the fixed placeholder as the changes summary; when the sentinel is
present, the text before its first occurrence (trimmed) is the changes
summary and the text after it (trimmed) is the resume body. -/
theorem c2_sentinel_split (s : List Char) :
    ((∀ i, i ≤ s.length → ¬ occursAt s i) →
        generateTailoredResume s =
          { changesSummary := changesPlaceholder, resumeMarkdown := s }) ∧
    (∀ i, occursAt s i → (∀ j, j < i → ¬ occursAt s j) →
        generateTailoredResume s =
          { changesSummary := trimChars (s.take i)
            resumeMarkdown := trimChars (s.drop (i + separatorMarker.length)) }) := by
  constructor
  · intro hnone
    cases hfi : firstIndexOf separatorMarker s with
    | none => simp [generateTailoredResume, hfi]
    | some k =>
      obtain ⟨hk, -⟩ := firstIndexOf_eq_some hfi
      have hkle : k ≤ s.length := by
        by_contra hgt
        push_neg at hgt
        rw [List.drop_eq_nil_of_le (le_of_lt hgt)] at hk
        exact absurd (List.prefix_nil.mp hk) (by decide)
      exact absurd hk (hnone k hkle)
  · intro i hi hmin
    cases hfi : firstIndexOf separatorMarker s with
    | none => exact absurd hi (firstIndexOf_eq_none hfi i)
    | some k =>
      obtain ⟨hk, hkmin⟩ := firstIndexOf_eq_some hfi
      have hki : k = i := by
        rcases Nat.lt_trichotomy k i with h | h | h
        · exact absurd hk (hmin k h)
        · exact h
        · exact absurd hi (hkmin i h)
      subst hki
      simp [generateTailoredResume, hfi]

/-- C2 witness: a concrete response with the sentinel at index 9 splits
into the trimmed summary and trimmed body, and a concrete response
without the sentinel is returned whole with the placeholder summary. -/
theorem c2_sentinel_split_witness :
    occursAt " summary ===SEPARATOR=== body ".data 9 ∧
    generateTailoredResume " summary ===SEPARATOR=== body ".data =
      { changesSummary := "summary".data, resumeMarkdown := "body".data } ∧
    generateTailoredResume "plain response".data =
      { changesSummary := changesPlaceholder, resumeMarkdown := "plain response".data } := by
  refine ⟨by decide, ?_, (c2_sentinel_split "plain response".data).1 (by decide)⟩
  have h := (c2_sentinel_split " summary ===SEPARATOR=== body ".data).2 9
    (by decide) (by decide)
  rw [h]
  decide

set_option maxRecDepth 20000 in
theorem pdfCatch_rethrow_notPdf : pdfCatch notPdfMsg = notPdfMsg := by
  unfold pdfCatch
  rw [show jsIncludes notPdfMsg "not a valid PDF format" = true from by decide]
  simp

set_option maxRecDepth 20000 in
theorem pdfCatch_rethrow_empty : pdfCatch pdfEmptyMsg = pdfEmptyMsg := by
  unfold pdfCatch
  rw [show jsIncludes pdfEmptyMsg "not a valid PDF format" = false from by decide,
    show jsIncludes pdfEmptyMsg "no extractable text" = true from by decide]
  simp

/-- C5: a buffer of at least 100 bytes declared as PDF whose first five
bytes are not the `%PDF-` magic header makes the extractor fail with the
format-mismatch message; the PDF failure kinds carry pairwise different
user-facing messages: format-mismatch, corrupted-or-protected,
empty-extraction and too-small are all distinct from one another. -/
theorem c5_pdf_header_mismatch (buf : List Char) (ext : ExternalOutcomes)
    (hlen : 100 ≤ buf.length)
    (hhdr : ("%PDF-".data.isPrefixOf (buf.take 5)) = false) :
    extractText buf "application/pdf" ext = Except.error notPdfMsg ∧
    notPdfMsg ≠ corruptPdfMsg ∧ notPdfMsg ≠ pdfEmptyMsg ∧
    notPdfMsg ≠ tooSmallPdfMsg ∧ corruptPdfMsg ≠ pdfEmptyMsg ∧
    corruptPdfMsg ≠ tooSmallPdfMsg ∧ pdfEmptyMsg ≠ tooSmallPdfMsg := by
  refine ⟨?_, by decide, by decide, by decide, by decide, by decide, by decide⟩
  show extractTextFromPDF buf ext.pdfParse = Except.error notPdfMsg
  have hbody : pdfTryBody buf ext.pdfParse = Except.error notPdfMsg := by
    unfold pdfTryBody
    rw [if_neg (Nat.not_lt.mpr hlen), if_pos hhdr]
  unfold extractTextFromPDF
  rw [hbody]
  show Except.error (pdfCatch notPdfMsg) = Except.error notPdfMsg
  rw [pdfCatch_rethrow_notPdf]

/-- C5 witness: a 100-byte buffer of letters declared as PDF fails with
the format-mismatch message. -/
theorem c5_pdf_header_mismatch_witness :
    100 ≤ (List.replicate 100 'a').length ∧
    ("%PDF-".data.isPrefixOf ((List.replicate 100 'a').take 5)) = false ∧
    extractText (List.replicate 100 'a') "application/pdf"
        ⟨Except.ok [], Except.ok none, Except.ok none⟩ = Except.error notPdfMsg :=
  ⟨by decide, by decide,
    (c5_pdf_header_mismatch (List.replicate 100 'a')
      ⟨Except.ok [], Except.ok none, Except.ok none⟩ (by decide) (by decide)).1⟩

/-- C4 counterexample: on the plain-text path an empty buffer yields a
successful empty extraction rather than an EmptyExtraction-class
failure, so the claim fails for the plain-text path. -/
theorem c4_plaintext_counterexample :
    extractText [] "text/plain" ⟨Except.ok [], Except.ok none, Except.ok none⟩
      = Except.ok "" := rfl

/-- C4 (amended): on the PDF, DOCX and image paths an extraction that is
empty after trimming fails with the respective empty-extraction message,
distinct from the unsupported-format error; the plain-text path instead
returns the decoded buffer unchanged, even when it is empty. -/
theorem c4_empty_extraction (buf : List Char) (ext : ExternalOutcomes)
    (pages : List String) (rawDocx rawOcr : Option String)
    (hp : ext.pdfParse = Except.ok pages)
    (hpl : 100 ≤ buf.length)
    (hph : ("%PDF-".data.isPrefixOf (buf.take 5)) = true)
    (hpe : jsTrim (pages.foldl (fun acc p => acc ++ p ++ "\n") "") = "")
    (hd : ext.docxRaw = Except.ok rawDocx)
    (hde : jsTrim (rawDocx.getD "") = "")
    (ho : ext.ocrRaw = Except.ok rawOcr)
    (hoe : jsTrim (rawOcr.getD "") = "") :
    extractText buf "application/pdf" ext = Except.error pdfEmptyMsg ∧
    extractText buf docxMime ext = Except.error docxEmptyMsg ∧
    extractText buf "application/msword" ext = Except.error docxEmptyMsg ∧
    extractText buf "image/png" ext = Except.error imageEmptyMsg ∧
    extractText buf "text/plain" ext = Except.ok (String.mk buf) ∧
    pdfEmptyMsg ≠ unsupportedMsg ∧ docxEmptyMsg ≠ unsupportedMsg ∧
    imageEmptyMsg ≠ unsupportedMsg := by
  refine ⟨?_, ?_, ?_, ?_, ?_, by decide, by decide, by decide⟩
  · show extractTextFromPDF buf ext.pdfParse = Except.error pdfEmptyMsg
    have hbody : pdfTryBody buf ext.pdfParse = Except.error pdfEmptyMsg := by
      rw [hp]
      unfold pdfTryBody
      rw [if_neg (Nat.not_lt.mpr hpl), if_neg (by rw [hph]; simp)]
      simp only [hpe, if_pos]
    unfold extractTextFromPDF
    rw [hbody]
    show Except.error (pdfCatch pdfEmptyMsg) = Except.error pdfEmptyMsg
    rw [pdfCatch_rethrow_empty]
  · show extractTextFromDOCX ext.docxRaw = Except.error docxEmptyMsg
    rw [hd]
    unfold extractTextFromDOCX
    simp only [hde, if_pos]
  · show extractTextFromDOCX ext.docxRaw = Except.error docxEmptyMsg
    rw [hd]
    unfold extractTextFromDOCX
    simp only [hde, if_pos]
  · show extractTextFromImage ext.ocrRaw = Except.error imageEmptyMsg
    rw [ho]
    unfold extractTextFromImage
    simp only [hoe, if_pos]
  · rfl

/-- C4 witness: for a well-headed 100-byte buffer, a PDF whose single
page holds only whitespace, a DOCX whose raw text is whitespace and an
image whose OCR text is empty all fail with their empty-extraction
messages, while the plain-text path returns the buffer unchanged. -/
theorem c4_empty_extraction_witness :
    extractText ("%PDF-".data ++ List.replicate 95 'x') "application/pdf"
        ⟨Except.ok [" "], Except.ok (some "  "), Except.ok (some "")⟩
      = Except.error pdfEmptyMsg ∧
    extractText ("%PDF-".data ++ List.replicate 95 'x') docxMime
        ⟨Except.ok [" "], Except.ok (some "  "), Except.ok (some "")⟩
      = Except.error docxEmptyMsg ∧
    extractText ("%PDF-".data ++ List.replicate 95 'x') "image/png"
        ⟨Except.ok [" "], Except.ok (some "  "), Except.ok (some "")⟩
      = Except.error imageEmptyMsg ∧
    extractText ("%PDF-".data ++ List.replicate 95 'x') "text/plain"
        ⟨Except.ok [" "], Except.ok (some "  "), Except.ok (some "")⟩
      = Except.ok (String.mk ("%PDF-".data ++ List.replicate 95 'x')) := by
  have h := c4_empty_extraction ("%PDF-".data ++ List.replicate 95 'x')
    ⟨Except.ok [" "], Except.ok (some "  "), Except.ok (some "")⟩
    [" "] (some "  ") (some "") rfl (by decide) (by decide) (by decide)
    rfl (by decide) rfl (by decide)
  exact ⟨h.1, h.2.1, h.2.2.2.1, h.2.2.2.2.1⟩

/-- C6: the upload handler rejects every upload whose extracted text is
shorter than 50 characters without creating a Resume record, and for
extracted text of length at least 50 it creates a Resume whose
extractedText equals the extractor output. -/
theorem c6_upload_gate (st : ResumeStore) (uid : String) (f : FileUpload)
    (ext : ExternalOutcomes) (text : String)
    (hex : extractText f.buffer f.mimetype ext = Except.ok text) :
    (text.length < 50 →
        uploadHandler st (some uid) (some f) ext
          = (st, UploadResponse.insufficientText)) ∧
    (50 ≤ text.length →
        ∃ r : Resume,
          (uploadHandler st (some uid) (some f) ext).2 = UploadResponse.created r ∧
          r.extractedText = text ∧
          mapGet (uploadHandler st (some uid) (some f) ext).1.resumes r.id = some r) := by
  have hstep : uploadHandler st (some uid) (some f) ext
      = match extractText f.buffer f.mimetype ext with
        | Except.error e => (st, UploadResponse.serverError e)
        | Except.ok text =>
          if text = "" ∨ text.length < 50 then (st, UploadResponse.insufficientText)
          else ((createResume st uid f.originalname f.size f.mimetype text).1,
            UploadResponse.created
              (createResume st uid f.originalname f.size f.mimetype text).2) := rfl
  constructor
  · intro hlt
    rw [hstep, hex]
    exact if_pos (Or.inr hlt)
  · intro hge
    have hcond : ¬ (text = "" ∨ text.length < 50) := by
      rintro (h | h)
      · subst h; exact absurd hge (by decide)
      · exact Nat.lt_irrefl _ (Nat.lt_of_lt_of_le h hge)
    have hred : uploadHandler st (some uid) (some f) ext
        = ((createResume st uid f.originalname f.size f.mimetype text).1,
          UploadResponse.created
            (createResume st uid f.originalname f.size f.mimetype text).2) := by
      rw [hstep, hex]
      exact if_neg hcond
    rw [hred]
    exact ⟨(createResume st uid f.originalname f.size f.mimetype text).2, rfl, rfl,
      mapGet_mapSet_self st.resumes (freshId st) _⟩

/-- C6 witness: a plain-text upload of 5 characters is rejected with the
store untouched, and a plain-text upload of 60 characters creates a
Resume holding exactly the extracted text. -/
theorem c6_upload_gate_witness :
    uploadHandler ⟨[], 0⟩ (some "user1")
        (some ⟨"cv.txt", 5, "text/plain", "short".data⟩)
        ⟨Except.ok [], Except.ok none, Except.ok none⟩
      = (⟨[], 0⟩, UploadResponse.insufficientText) ∧
    ∃ r : Resume,
      (uploadHandler ⟨[], 0⟩ (some "user1")
          (some ⟨"cv.txt", 60, "text/plain", List.replicate 60 'a'⟩)
          ⟨Except.ok [], Except.ok none, Except.ok none⟩).2
        = UploadResponse.created r ∧
      r.extractedText = String.mk (List.replicate 60 'a') := by
  constructor
  · exact (c6_upload_gate ⟨[], 0⟩ "user1" ⟨"cv.txt", 5, "text/plain", "short".data⟩
      ⟨Except.ok [], Except.ok none, Except.ok none⟩ "short" rfl).1 (by decide)
  · obtain ⟨r, h1, h2, -⟩ := (c6_upload_gate ⟨[], 0⟩ "user1"
      ⟨"cv.txt", 60, "text/plain", List.replicate 60 'a'⟩
      ⟨Except.ok [], Except.ok none, Except.ok none⟩
      (String.mk (List.replicate 60 'a')) rfl).2 (by decide)
    exact ⟨r, h1, h2⟩

/-- C9: each job-match update mutates only the fields of its own stage:
updateJobMatchResponses overwrites exactly gapResponses, finalVerdict and
shouldApply and keeps every other field and every other stored record
unchanged, updateJobMatchResume overwrites exactly
tailoredResumeContent; with a missing id each returns undefined and the
stored state is unchanged. -/
theorem c9_update_frame (m : JobMatchMap) (id : String) (rs : List GapResponse)
    (v : String) (b : Bool) (content : String) :
    (mapGet m id = none →
        updateJobMatchResponses m id rs v b = (m, none) ∧
        updateJobMatchResume m id content = (m, none)) ∧
    (∀ jm, mapGet m id = some jm →
        ∃ jm2, updateJobMatchResponses m id rs v b = (mapSet m id jm2, some jm2) ∧
          jm2.gapResponses = some rs ∧ jm2.finalVerdict = some v ∧
          jm2.shouldApply = some b ∧
          (jm2.id, jm2.resumeId, jm2.jobDescription, jm2.jobRole, jm2.jobLocation,
            jm2.alignmentScore, jm2.alignmentRationale, jm2.gaps, jm2.strengths,
            jm2.recommendations, jm2.tailoredResumeContent, jm2.createdAt)
            = (jm.id, jm.resumeId, jm.jobDescription, jm.jobRole, jm.jobLocation,
              jm.alignmentScore, jm.alignmentRationale, jm.gaps, jm.strengths,
              jm.recommendations, jm.tailoredResumeContent, jm.createdAt) ∧
          mapGet (mapSet m id jm2) id = some jm2 ∧
          ∀ k, k ≠ id → mapGet (mapSet m id jm2) k = mapGet m k) ∧
    (∀ jm, mapGet m id = some jm →
        ∃ jm3, updateJobMatchResume m id content = (mapSet m id jm3, some jm3) ∧
          jm3.tailoredResumeContent = some content ∧
          (jm3.id, jm3.resumeId, jm3.jobDescription, jm3.jobRole, jm3.jobLocation,
            jm3.alignmentScore, jm3.alignmentRationale, jm3.gaps, jm3.strengths,
            jm3.recommendations, jm3.gapResponses, jm3.finalVerdict, jm3.shouldApply,
            jm3.createdAt)
            = (jm.id, jm.resumeId, jm.jobDescription, jm.jobRole, jm.jobLocation,
              jm.alignmentScore, jm.alignmentRationale, jm.gaps, jm.strengths,
              jm.recommendations, jm.gapResponses, jm.finalVerdict, jm.shouldApply,
              jm.createdAt) ∧
          mapGet (mapSet m id jm3) id = some jm3 ∧
          ∀ k, k ≠ id → mapGet (mapSet m id jm3) k = mapGet m k) := by
  refine ⟨fun hn => ⟨?_, ?_⟩, fun jm hs => ?_, fun jm hs => ?_⟩
  · unfold updateJobMatchResponses; rw [hn]
  · unfold updateJobMatchResume; rw [hn]
  · refine ⟨{ jm with
        gapResponses := some rs
        finalVerdict := some v
        shouldApply := some b }, ?_, rfl, rfl, rfl, rfl,
      mapGet_mapSet_self m id _, fun k hk => mapGet_mapSet_ne m id k _ hk⟩
    unfold updateJobMatchResponses; rw [hs]
  · refine ⟨{ jm with tailoredResumeContent := some content }, ?_, rfl, rfl,
      mapGet_mapSet_self m id _, fun k hk => mapGet_mapSet_ne m id k _ hk⟩
    unfold updateJobMatchResume; rw [hs]

/-- C9 witness: on a store with one record, updates under a missing id
leave the store unchanged and return undefined, and updates under the
present id set exactly the stage fields. -/
theorem c9_update_frame_witness :
    updateJobMatchResponses [("j1", jmSample)] "nope" [⟨0, "advanced"⟩] "v" true
      = ([("j1", jmSample)], none) ∧
    updateJobMatchResume [("j1", jmSample)] "nope" "content"
      = ([("j1", jmSample)], none) ∧
    (∃ jm2, updateJobMatchResponses [("j1", jmSample)] "j1" [⟨0, "advanced"⟩] "v" true
        = (mapSet [("j1", jmSample)] "j1" jm2, some jm2) ∧
      jm2.gapResponses = some [⟨0, "advanced"⟩]) ∧
    (∃ jm3, updateJobMatchResume [("j1", jmSample)] "j1" "content"
        = (mapSet [("j1", jmSample)] "j1" jm3, some jm3) ∧
      jm3.tailoredResumeContent = some "content") := by
  have hmiss := (c9_update_frame [("j1", jmSample)] "nope"
    [⟨0, "advanced"⟩] "v" true "content").1 (by decide)
  obtain ⟨jm2, h2a, h2b, -⟩ := (c9_update_frame [("j1", jmSample)] "j1"
    [⟨0, "advanced"⟩] "v" true "content").2.1 jmSample (by decide)
  obtain ⟨jm3, h3a, h3b, -⟩ := (c9_update_frame [("j1", jmSample)] "j1"
    [⟨0, "advanced"⟩] "v" true "content").2.2 jmSample (by decide)
  exact ⟨hmiss.1, hmiss.2, ⟨jm2, h2a, h2b⟩, ⟨jm3, h3a, h3b⟩⟩

/-- C3: submitting gap responses holding a gapIndex outside the bounds
of the gaps array of the job match is rejected as a precondition error:
the storage is left unchanged, the responses are not stored and no
verdict is produced. -/
theorem c3_out_of_bounds_rejected (m : JobMatchMap) (id : String)
    (responses : List GapResponse) (verdictOutcome : FinalVerdictResult)
    (jm : JobMatch) (hget : mapGet m id = some jm)
    (r : GapResponse) (hr : r ∈ responses) (hoob : jm.gaps.length ≤ r.gapIndex) :
    submitGapResponses m id responses verdictOutcome
      = (m, Except.error "Invalid gap responses") := by
  have hA : responses.all (fun r =>
      decide (r.gapIndex < jm.gaps.length)
        && proficiencyLevels.contains r.proficiencyLevel) = false := by
    rw [List.all_eq_false]
    exact ⟨r, hr, by simp [Nat.not_lt.mpr hoob]⟩
  have hval : validGapResponses jm responses = false := by
    unfold validGapResponses
    rw [hA]
    rfl
  unfold submitGapResponses
  rw [hget]
  exact if_neg (by simp [hval])

/-- C3 witness: a gapIndex of 99 on a job match with three gaps is
rejected and the store is unchanged. -/
theorem c3_out_of_bounds_rejected_witness :
    submitGapResponses [("j1", jmSample)] "j1" [⟨99, "advanced"⟩]
        { verdict := "ok", shouldApply := true }
      = ([("j1", jmSample)], Except.error "Invalid gap responses") ∧
    jmSample.gaps.length = 3 :=
  ⟨c3_out_of_bounds_rejected [("j1", jmSample)] "j1" [⟨99, "advanced"⟩]
      { verdict := "ok", shouldApply := true } jmSample (by decide)
      ⟨99, "advanced"⟩ (by decide) (by decide),
    by decide⟩

end Resumatch
